import Mathlib

/-!
# Verification of the sACN viewer core

Shallow embedding of the repository's core state (`src/src/core/mod.rs`),
its network-facing operations (`src/src/network/mod_new.rs`,
`src/src/network/mod.rs`) and the packet builder of `src/test_sender.rs`,
together with proofs of the specified properties.

Machine integers are modelled as `Nat` (u8/u16 values stay below 256/65536
by construction or by hypothesis; no arithmetic here can overflow them).
Hash maps are modelled as functions into `Option`; timestamps (`Utc::now`)
are passed explicitly; the outcome of an I/O action (file save, socket
call) is passed as an explicit `Option String` error parameter.
-/

/-- Model of `std::net::IpAddr` (enum of a V4 and a V6 variant). -/
inductive IpAddr where
  | v4 (a b c d : Nat)
  | v6 (segments : List Nat)
deriving DecidableEq, Repr

/-- Timestamps (`DateTime<Utc>`) are abstract instants; only ordering of
calls matters, so a `Nat` suffices. -/
abbrev Timestamp := Nat

/-- `NetworkAdapter` from `src/src/core/mod.rs`. -/
structure NetworkAdapter where
  name : String
  ip : IpAddr
  description : String
  is_available : Bool
deriving DecidableEq, Repr

/-- `AppSettings` from `src/src/core/mod.rs` (window size floats are kept
abstract as a pair of `Nat` placeholders; no claim touches them). -/
structure AppSettings where
  selected_adapter : Option String
  window_size : Option (Nat × Nat)
  auto_send_enabled : Bool
  send_rate : Nat
deriving DecidableEq, Repr

/-- `AppSettings::default()`. -/
def AppSettings.default : AppSettings :=
  { selected_adapter := none
    window_size := none
    auto_send_enabled := false
    send_rate := 20 }

/-- `SacnDevice` from `src/src/core/mod.rs`. -/
structure SacnDevice where
  ip : IpAddr
  universes : List Nat
  last_seen : Timestamp
  source_name : String
  priority : Nat
deriving DecidableEq, Repr

/-- `UniverseData` from `src/src/core/mod.rs`; `channels` is the 512-byte
buffer as a list. -/
structure UniverseData where
  universe_id : Nat
  channels : List Nat
  last_updated : Timestamp
  source_ip : IpAddr
  sequence : Nat
deriving DecidableEq, Repr

/-- `LogLevel` from `src/src/core/mod.rs`. -/
inductive LogLevel where
  | Info
  | Warning
  | Error
  | Rx
  | Tx
deriving DecidableEq, Repr

/-- `LogEntry` from `src/src/core/mod.rs`. -/
structure LogEntry where
  timestamp : Timestamp
  level : LogLevel
  message : String
deriving DecidableEq, Repr

/-- `AppState` from `src/src/core/mod.rs`; the two `HashMap`s are modelled
as functions into `Option`. -/
structure AppState where
  devices : IpAddr → Option SacnDevice
  universes : Nat → Option UniverseData
  logs : List LogEntry
  selected_universe : Option Nat
  auto_send_enabled : Bool
  send_rate : Nat
  network_adapters : List NetworkAdapter
  selected_adapter : Option String
  settings : AppSettings

/-- `AppState::new()`. -/
def AppState.new : AppState :=
  { devices := fun _ => none
    universes := fun _ => none
    logs := []
    selected_universe := none
    auto_send_enabled := false
    send_rate := 20
    network_adapters := []
    selected_adapter := none
    settings := AppSettings.default }

/-- `AppState::add_log`: push the entry, then if the length exceeds 1000
remove the entry at index 0 (`self.logs.remove(0)`). The timestamp
(`Utc::now()`) is the explicit `now` argument. -/
def AppState.add_log (st : AppState) (now : Timestamp) (level : LogLevel)
    (message : String) : AppState :=
  let logs := st.logs ++ [{ timestamp := now, level := level, message := message }]
  { st with logs := if logs.length > 1000 then logs.tail else logs }

/-- `Vec::sort()` on a `Vec<u16>`: stable ascending sort. -/
def sortAsc (l : List Nat) : List Nat :=
  List.insertionSort (· ≤ ·) l

/-- `AppState::update_device`: upsert by `ip` (`entry(ip).or_insert_with`),
always refresh `last_seen`, `source_name`, `priority`, and push + sort the
universe only when it is not already present. -/
def AppState.update_device (st : AppState) (now : Timestamp) (ip : IpAddr)
    (u : Nat) (source_name : String) (priority : Nat) : AppState :=
  let d0 : SacnDevice :=
    match st.devices ip with
    | some d => d
    | none =>
        { ip := ip
          universes := []
          last_seen := now
          source_name := source_name
          priority := priority }
  let d1 := { d0 with last_seen := now, source_name := source_name, priority := priority }
  let d2 :=
    if u ∈ d1.universes then d1
    else { d1 with universes := sortAsc (d1.universes ++ [u]) }
  { st with devices := fun k => if k = ip then some d2 else st.devices k }

/-- `AppState::update_universe`: unconditional `HashMap::insert` of a fresh
`UniverseData` snapshot. -/
def AppState.update_universe (st : AppState) (now : Timestamp) (u : Nat)
    (channels : List Nat) (source_ip : IpAddr) (sequence : Nat) : AppState :=
  { st with
    universes := fun k =>
      if k = u then
        some { universe_id := u
               channels := channels
               last_updated := now
               source_ip := source_ip
               sequence := sequence }
      else st.universes k }

/-- `AppState::update_adapter_selection`: set both the live field and the
persisted settings field, then attempt `save_settings`; a save failure
(modelled by the explicit `saveError` argument) appends a Warning log. -/
def AppState.update_adapter_selection (st : AppState) (now : Timestamp)
    (adapter_name : Option String) (saveError : Option String) : AppState :=
  let st1 := { st with
    selected_adapter := adapter_name
    settings := { st.settings with selected_adapter := adapter_name } }
  match saveError with
  | none => st1
  | some e => st1.add_log now LogLevel.Warning ("Failed to save settings: " ++ e)

/-- `AppState::get_selected_adapter_ip`: if a selection is set, look it up
by name in the enumerated adapters (no fallback on a miss); otherwise the
first enumerated adapter. -/
def AppState.get_selected_adapter_ip (st : AppState) : Option IpAddr :=
  match st.selected_adapter with
  | some adapter_name =>
      (st.network_adapters.find? (fun a => a.name == adapter_name)).map NetworkAdapter.ip
  | none => st.network_adapters.head?.map NetworkAdapter.ip

/-- `SacnNetwork::send_dmx` (`src/src/network/mod_new.rs`): the three
fallible socket operations (source creation, universe registration, the
send itself) have their outcomes passed in as `Option String` errors in
program order; the returned `Bool` is `true` exactly when the Rust function
returns `Ok(())`. -/
def SacnNetwork.send_dmx (st : AppState) (now : Timestamp) (u : Nat)
    (createErr registerErr sendErr : Option String) : AppState × Bool :=
  match createErr with
  | some e => (st.add_log now LogLevel.Error ("Failed to create sACN source: " ++ e), false)
  | none =>
    match registerErr with
    | some e =>
        (st.add_log now LogLevel.Error
          ("Failed to register universe " ++ toString u ++ ": " ++ e), false)
    | none =>
      match sendErr with
      | some e => (st.add_log now LogLevel.Error ("Failed to send DMX data: " ++ e), false)
      | none => (st.add_log now LogLevel.Tx ("Sent DMX data to universe " ++ toString u), true)

/-- The universe list registered at listener startup
(`src/src/network/mod.rs` line 61 and `mod_new.rs` line 66):
`let common_universes: Vec<u16> = (1..=512).collect();`. -/
def common_universes : List Nat :=
  (List.range 512).map (fun i => i + 1)

/-- The universe-registration step of `SacnNetwork::start_listener`
(`src/src/network/mod.rs` lines 62-68): `receiver.listen_universes` is
called once for the whole batch; on failure a single Warning entry is
logged and startup continues (the function does not return an error). -/
def SacnNetwork.start_listener_register (st : AppState) (now : Timestamp)
    (listenErr : Option String) : AppState :=
  match listenErr with
  | some e => st.add_log now LogLevel.Warning ("Failed to register some universes: " ++ e)
  | none => st

/-- Modelled from the spec: the per-universe multicast group
`239.255.(u>>8).(u&0xFF)` of spec section 6. The group computation lives in
the external `sacn` crate, not in `src/`. -/
def universe_to_multicast (u : Nat) : IpAddr :=
  IpAddr.v4 239 255 (u / 256 % 256) (u % 256)

/-- The 12-byte ACN packet identifier constant `b"ASC-E1.17\x00\x00\x00"`
(bytes 4..16 of every packet; `src/test_sender.rs` line 33). -/
def ACN_PACKET_IDENTIFIER : List Nat :=
  [0x41, 0x53, 0x43, 0x2D, 0x45, 0x31, 0x2E, 0x31, 0x37, 0x00, 0x00, 0x00]

/-- The 64-byte NUL-padded source-name field: the name bytes followed by
NUL padding (`src/test_sender.rs` lines 49-52). -/
def sourceNameField (name : List Nat) : List Nat :=
  (name ++ List.replicate 64 0).take 64

/-- The fixed CID of `src/test_sender.rs` lines 38-41. -/
def testCid : List Nat :=
  [0x12, 0x34, 0x56, 0x78, 0x9a, 0xbc, 0xde, 0xf0,
   0x12, 0x34, 0x56, 0x78, 0x9a, 0xbc, 0xde, 0xf0]

/-- The bytes of `b"Test sACN Sender"` (`src/test_sender.rs` line 50). -/
def testSourceName : List Nat :=
  [0x54, 0x65, 0x73, 0x74, 0x20, 0x73, 0x41, 0x43, 0x4E, 0x20,
   0x53, 0x65, 0x6E, 0x64, 0x65, 0x72]

/-- The build operation: emits the root, framing and DMP layers in order.
Layout and constants follow `create_test_packet` of `src/test_sender.rs`
(the general parameters `channels`/`source_name`/`priority`/`sequence`
follow the build description of spec section 4.1, which has the same
layout). `u16::to_be_bytes` is `[v / 256 % 256, v % 256]`. -/
def buildPacket (u : Nat) (channels : List Nat) (source_name : List Nat)
    (priority sequence : Nat) (cid : List Nat) : List Nat :=
  [0x00, 0x10]
  ++ [0x00, 0x00]
  ++ ACN_PACKET_IDENTIFIER
  ++ [0x70, 0x26]
  ++ [0x00, 0x00, 0x00, 0x04]
  ++ cid
  ++ [0x72, 0x58]
  ++ [0x00, 0x00, 0x00, 0x02]
  ++ sourceNameField source_name
  ++ [priority % 256]
  ++ [0x00, 0x00]
  ++ [sequence % 256]
  ++ [0x00]
  ++ [u / 256 % 256, u % 256]
  ++ [0x72, 0x0B]
  ++ [0x02]
  ++ [0xA1]
  ++ [0x00, 0x00]
  ++ [0x00, 0x01]
  ++ [0x02, 0x01]
  ++ [0x00]
  ++ (channels ++ List.replicate 512 0).take 512

/-- `create_test_packet` of `src/test_sender.rs`: the DMX buffer is 512
zero bytes with channels 1 and 2 set, name `Test sACN Sender`, priority
100, sequence 0, the fixed test CID. -/
def create_test_packet (u ch1 ch2 : Nat) : List Nat :=
  buildPacket u (ch1 :: ch2 :: List.replicate 510 0) testSourceName 100 0 testCid

/-- `MalformedPacket` errors of the parse operation (spec section 4.1). -/
inductive SacnError where
  | MalformedPacket (msg : String)
deriving DecidableEq, Repr

/-- The output of the parse operation (spec section 4.1): the source name
is kept as its raw bytes trimmed of trailing NULs (UTF-8 replacement
decoding is irrelevant to every claim). -/
structure ParsedPacket where
  universe_id : Nat
  sequence : Nat
  priority : Nat
  source_name : List Nat
  channels : List Nat
deriving DecidableEq, Repr

/-- Trailing-NUL trimming of the decoded source name. -/
def trimTrailingNuls (l : List Nat) : List Nat :=
  (l.reverse.dropWhile (fun b => b == 0)).reverse

/-- Modelled from the spec: the `parse` operation of spec section 4.1. The
repository delegates parsing to the external `sacn` crate, so the parse
function itself is not under `src/`; this follows the fixed-offset layout
the spec gives: length below 126 is `too short`; bytes 4..16 must equal
the identifier, else `bad identifier`; the name is bytes 38..102, priority
byte 102, sequence byte 105, universe big-endian at 107..109, and the 512
channel bytes start at offset 120 (`truncated payload` when fewer than 512
bytes remain there, i.e. when the input is shorter than 632). -/
def parsePacket (bytes : List Nat) : Except SacnError ParsedPacket :=
  if bytes.length < 126 then
    Except.error (SacnError.MalformedPacket "too short")
  else if (bytes.drop 4).take 12 ≠ ACN_PACKET_IDENTIFIER then
    Except.error (SacnError.MalformedPacket "bad identifier")
  else if bytes.length < 632 then
    Except.error (SacnError.MalformedPacket "truncated payload")
  else
    Except.ok
      { universe_id := (bytes.getD 107 0) * 256 + bytes.getD 108 0
        sequence := bytes.getD 105 0
        priority := bytes.getD 102 0
        source_name := trimTrailingNuls ((bytes.drop 38).take 64)
        channels := (bytes.drop 120).take 512 }

set_option maxRecDepth 100000

/-- Claim C4: `update_universe` unconditionally replaces the snapshot for
the universe with the given values, and a second call for the same
universe leaves the snapshot equal to the second call's buffer, regardless
of source. -/
theorem claim4_update_universe_replaces (st : AppState) (now1 now2 : Timestamp)
    (u : Nat) (ch1 ch2 : List Nat) (ip1 ip2 : IpAddr) (s1 s2 : Nat) :
    (st.update_universe now1 u ch1 ip1 s1).universes u
      = some { universe_id := u, channels := ch1, last_updated := now1
               source_ip := ip1, sequence := s1 }
    ∧ ((st.update_universe now1 u ch1 ip1 s1).update_universe now2 u ch2 ip2 s2).universes u
      = some { universe_id := u, channels := ch2, last_updated := now2
               source_ip := ip2, sequence := s2 } := by
  constructor <;> simp [AppState.update_universe]

/-- Claim C9: `update_universe` modifies only the snapshot keyed by the
given universe; every key other than the updated one, the device table,
the log buffer, the settings, the adapter list, and the remaining state
fields are unchanged. -/
theorem claim9_update_universe_frame (st : AppState) (now : Timestamp)
    (u : Nat) (ch : List Nat) (ip : IpAddr) (s : Nat) :
    (st.update_universe now u ch ip s).devices = st.devices
    ∧ (st.update_universe now u ch ip s).logs = st.logs
    ∧ (st.update_universe now u ch ip s).settings = st.settings
    ∧ (st.update_universe now u ch ip s).network_adapters = st.network_adapters
    ∧ (st.update_universe now u ch ip s).selected_adapter = st.selected_adapter
    ∧ (st.update_universe now u ch ip s).selected_universe = st.selected_universe
    ∧ (st.update_universe now u ch ip s).auto_send_enabled = st.auto_send_enabled
    ∧ (st.update_universe now u ch ip s).send_rate = st.send_rate
    ∧ ∀ k, k = u ∨ (st.update_universe now u ch ip s).universes k = st.universes k := by
  refine ⟨rfl, rfl, rfl, rfl, rfl, rfl, rfl, rfl, fun k => ?_⟩
  by_cases hk : k = u
  · exact Or.inl hk
  · exact Or.inr (by simp [AppState.update_universe, hk])

/-- Helper: whatever the current buffer, `add_log` leaves the new entry as
the last element of the log buffer. -/
theorem add_log_last (st : AppState) (now : Timestamp) (lvl : LogLevel) (msg : String) :
    ∃ rest, (st.add_log now lvl msg).logs
      = rest ++ [{ timestamp := now, level := lvl, message := msg }] := by
  simp only [AppState.add_log]
  by_cases hlen :
      (st.logs ++ [({ timestamp := now, level := lvl, message := msg } : LogEntry)]).length > 1000
  · refine ⟨st.logs.tail, ?_⟩
    have hne : st.logs ≠ [] := by
      intro h0
      rw [h0] at hlen
      simp at hlen
    obtain ⟨a, t, hat⟩ := List.exists_cons_of_ne_nil hne
    rw [if_pos hlen, hat]
    simp
  · exact ⟨st.logs, by rw [if_neg hlen]⟩

/-- Claim C10: `update_adapter_selection` sets both the live field and the
persisted settings field to the new value whatever the save outcome; on a
save failure the in-memory selection keeps the new value and a Warning
entry is appended as the last log entry. -/
theorem claim10_adapter_selection (st : AppState) (now : Timestamp)
    (name : Option String) (err : String) :
    (st.update_adapter_selection now name none).selected_adapter = name
    ∧ (st.update_adapter_selection now name none).settings.selected_adapter = name
    ∧ (st.update_adapter_selection now name (some err)).selected_adapter = name
    ∧ (st.update_adapter_selection now name (some err)).settings.selected_adapter = name
    ∧ ∃ rest, (st.update_adapter_selection now name (some err)).logs
        = rest ++ [{ timestamp := now, level := LogLevel.Warning
                     message := "Failed to save settings: " ++ err }] := by
  refine ⟨rfl, rfl, rfl, rfl, ?_⟩
  exact add_log_last
    { st with selected_adapter := name
              settings := { st.settings with selected_adapter := name } }
    now LogLevel.Warning ("Failed to save settings: " ++ err)

/-- Claim C6 counterexample: universe 513 lies in the supported range
[1, 63999], yet it is not among the universes the listener registers at
startup — `common_universes` is exactly 1..=512 — so the multicast group
of universe 513 is never joined. -/
theorem claim6_counterexample :
    1 ≤ 513 ∧ 513 ≤ 63999 ∧ ¬ (513 ∈ common_universes) := by decide

/-- Claim C6 (amended): at startup the listener registers exactly the
universes 1..=512 with the receiver (whose per-universe multicast group is
`239.255.<high byte>.<low byte>`, e.g. 239.255.0.1 for universe 1 and
239.255.1.44 for universe 300); a failure of the batch registration call
is logged as a single Warning entry and does not abort startup, and a
successful registration leaves the state untouched. -/
theorem claim6_startup_registration (st : AppState) (now : Timestamp)
    (e : String) (u : Nat) :
    (u ∈ common_universes ↔ 1 ≤ u ∧ u ≤ 512)
    ∧ SacnNetwork.start_listener_register st now none = st
    ∧ (∃ rest, (SacnNetwork.start_listener_register st now (some e)).logs
        = rest ++ [{ timestamp := now, level := LogLevel.Warning
                     message := "Failed to register some universes: " ++ e }])
    ∧ universe_to_multicast 1 = IpAddr.v4 239 255 0 1
    ∧ universe_to_multicast 300 = IpAddr.v4 239 255 1 44 := by
  refine ⟨?_, rfl, add_log_last st now LogLevel.Warning _, by decide, by decide⟩
  simp only [common_universes, List.mem_map, List.mem_range]
  constructor
  · rintro ⟨i, hi, rfl⟩
    omega
  · rintro ⟨h1, h2⟩
    exact ⟨u - 1, by omega, by omega⟩

/-- Concrete state for the C7 counterexample: a selection is set whose
name no enumerated adapter bears, while the adapter list is nonempty. -/
def claim7State : AppState :=
  { AppState.new with
    selected_adapter := some "eth0"
    network_adapters := [{ name := "wlan0", ip := IpAddr.v4 192 168 1 5
                           description := "wlan0 (192.168.1.5)", is_available := true }] }

/-- Claim C7 counterexample: with a stale selection and a nonempty adapter
list, `get_selected_adapter_ip` returns `none` instead of the first
enumerated adapter's address, refuting both the fallback clause and the
clause that `none` is returned only on an empty adapter list. -/
theorem claim7_counterexample :
    claim7State.get_selected_adapter_ip = none
    ∧ claim7State.network_adapters ≠ []
    ∧ claim7State.network_adapters.head?.map NetworkAdapter.ip
        = some (IpAddr.v4 192 168 1 5) :=
  ⟨rfl, by decide, rfl⟩

/-- Claim C7 (amended): `get_selected_adapter_ip` returns the address of
the first enumerated adapter whose name equals the selection when one is
set; when a selection is set but no enumerated adapter matches it, it
returns `none` (no fallback); with no selection it returns the first
enumerated adapter's address, so in that case `none` arises exactly from
an empty list. -/
theorem claim7_selected_adapter_ip (st : AppState) (n : String) (a : NetworkAdapter) :
    (st.selected_adapter = none →
      st.get_selected_adapter_ip = st.network_adapters.head?.map NetworkAdapter.ip)
    ∧ (st.selected_adapter = some n →
        (∀ b ∈ st.network_adapters, b.name ≠ n) →
        st.get_selected_adapter_ip = none)
    ∧ (st.selected_adapter = some n →
        st.network_adapters.find? (fun b => b.name == n) = some a →
        st.get_selected_adapter_ip = some a.ip) := by
  refine ⟨fun h => ?_, fun h hall => ?_, fun h hf => ?_⟩
  · simp [AppState.get_selected_adapter_ip, h]
  · have hnone : st.network_adapters.find? (fun b => b.name == n) = none := by
      rw [List.find?_eq_none]
      intro b hb
      simpa using hall b hb
    simp [AppState.get_selected_adapter_ip, h, hnone]
  · simp [AppState.get_selected_adapter_ip, h, hf]

/-- Concrete state for the C7 witness: the selection names the sole
enumerated adapter. -/
def claim7WitnessState : AppState :=
  { AppState.new with
    selected_adapter := some "eth1"
    network_adapters := [{ name := "eth1", ip := IpAddr.v4 10 0 0 2
                           description := "eth1 (10.0.0.2)", is_available := true }] }

/-- Witness for the amended C7 theorem at a concrete state. -/
theorem claim7_selected_adapter_ip_witness :
    claim7WitnessState.get_selected_adapter_ip = some (IpAddr.v4 10 0 0 2) :=
  (claim7_selected_adapter_ip claim7WitnessState "eth1"
      { name := "eth1", ip := IpAddr.v4 10 0 0 2
        description := "eth1 (10.0.0.2)", is_available := true }).2.2 rfl (by decide)

/-- Helper: `add_log` leaves the new entry as the last element. -/
theorem add_log_getLast (st : AppState) (now : Timestamp) (lvl : LogLevel) (msg : String) :
    (st.add_log now lvl msg).logs.getLast?
      = some { timestamp := now, level := lvl, message := msg } := by
  obtain ⟨rest, hr⟩ := add_log_last st now lvl msg
  rw [hr, List.getLast?_concat]

/-- Claim C8: `send_dmx` returns success exactly when source creation,
universe registration and the send all succeeded; on success the entry
appended for this call is a Tx entry, and on any failure the entry
appended is an Error entry while the failure is returned to the caller. -/
theorem claim8_send_dmx (st : AppState) (now : Timestamp) (u : Nat)
    (cErr rErr sErr : Option String) :
    ((SacnNetwork.send_dmx st now u cErr rErr sErr).2 = true
      ↔ cErr = none ∧ rErr = none ∧ sErr = none)
    ∧ ((SacnNetwork.send_dmx st now u cErr rErr sErr).2 = true →
        (SacnNetwork.send_dmx st now u cErr rErr sErr).1.logs.getLast? = some
          { timestamp := now, level := LogLevel.Tx
            message := "Sent DMX data to universe " ++ toString u })
    ∧ ((SacnNetwork.send_dmx st now u cErr rErr sErr).2 = false →
        ∃ m, (SacnNetwork.send_dmx st now u cErr rErr sErr).1.logs.getLast? = some
          { timestamp := now, level := LogLevel.Error, message := m }) := by
  rcases cErr with _ | e1
  · rcases rErr with _ | e2
    · rcases sErr with _ | e3
      · exact ⟨by simp [SacnNetwork.send_dmx],
          fun _ => add_log_getLast st now LogLevel.Tx _,
          fun h => by simp [SacnNetwork.send_dmx] at h⟩
      · exact ⟨by simp [SacnNetwork.send_dmx],
          fun h => by simp [SacnNetwork.send_dmx] at h,
          fun _ => ⟨_, add_log_getLast st now LogLevel.Error _⟩⟩
    · exact ⟨by simp [SacnNetwork.send_dmx],
        fun h => by simp [SacnNetwork.send_dmx] at h,
        fun _ => ⟨_, add_log_getLast st now LogLevel.Error _⟩⟩
  · exact ⟨by simp [SacnNetwork.send_dmx],
      fun h => by simp [SacnNetwork.send_dmx] at h,
      fun _ => ⟨_, add_log_getLast st now LogLevel.Error _⟩⟩

/-- Witness for C8: a fully successful send from the fresh state returns
success and appends the Tx entry. -/
theorem claim8_send_dmx_witness :
    (SacnNetwork.send_dmx AppState.new 0 1 none none none).2 = true
    ∧ (SacnNetwork.send_dmx AppState.new 0 1 none none none).1.logs.getLast? = some
        { timestamp := 0, level := LogLevel.Tx
          message := "Sent DMX data to universe " ++ toString 1 } :=
  ⟨(claim8_send_dmx AppState.new 0 1 none none none).1.mpr ⟨rfl, rfl, rfl⟩,
   (claim8_send_dmx AppState.new 0 1 none none none).2.1 rfl⟩

/-- The log entry built by `add_log` from one call's arguments. -/
def mkLogEntry (e : Timestamp × LogLevel × String) : LogEntry :=
  { timestamp := e.1, level := e.2.1, message := e.2.2 }

/-- A sequence of `add_log` calls in order. -/
def addLogs (st : AppState) (entries : List (Timestamp × LogLevel × String)) : AppState :=
  entries.foldl (fun s e => s.add_log e.1 e.2.1 e.2.2) st

/-- The effect of one `add_log` call on the log buffer alone. -/
def logStep (l : List LogEntry) (e : LogEntry) : List LogEntry :=
  let l2 := l ++ [e]
  if l2.length > 1000 then l2.tail else l2

/-- Helper: the log buffer after `addLogs` is the fold of `logStep`. -/
theorem addLogs_logs : ∀ (entries : List (Timestamp × LogLevel × String)) (st : AppState),
    (addLogs st entries).logs = (entries.map mkLogEntry).foldl logStep st.logs
  | [], st => rfl
  | e :: es, st => by
    have h1 : addLogs st (e :: es) = addLogs (st.add_log e.1 e.2.1 e.2.2) es := rfl
    have h2 : (st.add_log e.1 e.2.1 e.2.2).logs = logStep st.logs (mkLogEntry e) := rfl
    rw [h1, addLogs_logs es, h2, List.map_cons, List.foldl_cons]

/-- Helper: a `logStep` fold starting below capacity keeps exactly the
most recent 1000 entries of the accumulated stream. -/
theorem foldl_logStep_drop : ∀ (es acc : List LogEntry), acc.length ≤ 1000 →
    es.foldl logStep acc = (acc ++ es).drop (acc.length + es.length - 1000)
  | [], acc, h => by
    rw [List.foldl_nil, List.append_nil, List.length_nil, Nat.add_zero,
      Nat.sub_eq_zero_of_le h, List.drop_zero]
  | e :: es, acc, h => by
    rw [List.foldl_cons]
    by_cases hlt : acc.length < 1000
    · have hcond : ¬ ((acc ++ [e]).length > 1000) := by
        simp only [List.length_append, List.length_cons, List.length_nil]
        omega
      have hstep : logStep acc e = acc ++ [e] := by
        simp only [logStep]
        rw [if_neg hcond]
      have hlen : (acc ++ [e]).length ≤ 1000 := by
        simp only [List.length_append, List.length_cons, List.length_nil]
        omega
      rw [hstep, foldl_logStep_drop es (acc ++ [e]) hlen]
      have hidx : (acc ++ [e]).length + es.length - 1000
          = acc.length + (e :: es).length - 1000 := by
        simp only [List.length_append, List.length_cons, List.length_nil]
        omega
      rw [hidx, List.append_assoc, List.singleton_append]
    · have hacc : acc.length = 1000 := le_antisymm h (Nat.not_lt.mp hlt)
      have hne : acc ≠ [] := by
        intro h0
        rw [h0] at hacc
        simp at hacc
      obtain ⟨a, t, hat⟩ := List.exists_cons_of_ne_nil hne
      have htlen : t.length = 999 := by
        rw [hat] at hacc
        simpa using hacc
      have hcond : (acc ++ [e]).length > 1000 := by
        simp only [List.length_append, List.length_cons, List.length_nil]
        omega
      have hstep : logStep acc e = t ++ [e] := by
        simp only [logStep]
        rw [if_pos hcond, hat]
        rfl
      have hlen : (t ++ [e]).length ≤ 1000 := by
        simp only [List.length_append, List.length_cons, List.length_nil]
        omega
      rw [hstep, foldl_logStep_drop es (t ++ [e]) hlen, hat]
      have hidx1 : (t ++ [e]).length + es.length - 1000 = es.length := by
        simp only [List.length_append, List.length_cons, List.length_nil]
        omega
      have hidx2 : (a :: t).length + (e :: es).length - 1000 = es.length + 1 := by
        simp only [List.length_cons]
        omega
      rw [hidx1, hidx2, List.append_assoc, List.singleton_append]
      show (t ++ e :: es).drop es.length = ((a :: t) ++ e :: es).drop (es.length + 1)
      rw [List.cons_append, List.drop_succ_cons]

/-- Claim C2: starting from the empty store, any sequence of `add_log`
calls keeps the buffer exactly at the most recent 1000 entries of the
stream (so its length never exceeds 1000, and 1001 calls leave precisely
the last 1000 entries); whenever the buffer is full, the next call evicts
exactly the single oldest entry and appends the new one at the end. -/
theorem claim2_log_ring (entries : List (Timestamp × LogLevel × String))
    (st : AppState) (now : Timestamp) (lvl : LogLevel) (msg : String)
    (hfull : st.logs.length = 1000) :
    (addLogs AppState.new entries).logs
      = (entries.map mkLogEntry).drop (entries.length - 1000)
    ∧ (addLogs AppState.new entries).logs.length ≤ 1000
    ∧ (st.add_log now lvl msg).logs
      = st.logs.tail ++ [mkLogEntry (now, lvl, msg)] := by
  have hmain : (addLogs AppState.new entries).logs
      = (entries.map mkLogEntry).drop (entries.length - 1000) := by
    have hnew : AppState.new.logs = [] := rfl
    rw [addLogs_logs, hnew, foldl_logStep_drop (entries.map mkLogEntry) [] (by simp)]
    simp
  refine ⟨hmain, ?_, ?_⟩
  · rw [hmain]
    simp only [List.length_drop, List.length_map]
    omega
  · have hne : st.logs ≠ [] := by
      intro h0
      rw [h0] at hfull
      simp at hfull
    have hcond : (st.logs ++ [mkLogEntry (now, lvl, msg)]).length > 1000 := by
      simp only [List.length_append, List.length_cons, List.length_nil]
      omega
    obtain ⟨a, t, hat⟩ := List.exists_cons_of_ne_nil hne
    show (if (st.logs ++ [mkLogEntry (now, lvl, msg)]).length > 1000
        then (st.logs ++ [mkLogEntry (now, lvl, msg)]).tail
        else st.logs ++ [mkLogEntry (now, lvl, msg)])
      = st.logs.tail ++ [mkLogEntry (now, lvl, msg)]
    rw [if_pos hcond, hat]
    simp

/-- Concrete stream of 1001 log calls for the C2 witness. -/
def claim2Entries : List (Timestamp × LogLevel × String) :=
  (List.range 1001).map (fun i => (i, LogLevel.Info, "m"))

/-- Concrete full store (1000 log entries) for the C2 witness. -/
def claim2FullState : AppState :=
  { AppState.new with logs := List.replicate 1000 (mkLogEntry (0, LogLevel.Info, "m")) }

/-- Witness for C2: the 1001-call stream and a full buffer, concretely. -/
theorem claim2_log_ring_witness :
    (addLogs AppState.new claim2Entries).logs
      = (claim2Entries.map mkLogEntry).drop (claim2Entries.length - 1000)
    ∧ (addLogs AppState.new claim2Entries).logs.length ≤ 1000
    ∧ (claim2FullState.add_log 7 LogLevel.Rx "x").logs
      = claim2FullState.logs.tail ++ [mkLogEntry (7, LogLevel.Rx, "x")] :=
  claim2_log_ring claim2Entries claim2FullState 7 LogLevel.Rx "x"
    (by simp [claim2FullState])

/-- Helper: the device stored at `ip` after one `update_device` call. -/
theorem update_device_at_ip (st : AppState) (now : Timestamp) (ip : IpAddr)
    (u : Nat) (name : String) (prio : Nat) :
    ∃ d, (st.update_device now ip u name prio).devices ip = some d
      ∧ d.last_seen = now ∧ d.source_name = name ∧ d.priority = prio
      ∧ d.universes = (match st.devices ip with
          | some d0 => if u ∈ d0.universes then d0.universes
                       else sortAsc (d0.universes ++ [u])
          | none => sortAsc [u]) := by
  cases hdev : st.devices ip with
  | none =>
    refine ⟨{ ip := ip, universes := sortAsc ([] ++ [u]), last_seen := now,
              source_name := name, priority := prio }, ?_, rfl, rfl, rfl, ?_⟩
    · simp [AppState.update_device, hdev]
    · simp
  | some d0 =>
    by_cases hm : u ∈ d0.universes
    · refine ⟨{ d0 with last_seen := now, source_name := name, priority := prio },
        ?_, rfl, rfl, rfl, ?_⟩
      · simp [AppState.update_device, hdev, hm]
      · simp [hm]
    · refine ⟨{ ip := d0.ip, universes := sortAsc (d0.universes ++ [u]), last_seen := now,
                source_name := name, priority := prio }, ?_, rfl, rfl, rfl, ?_⟩
      · simp [AppState.update_device, hdev, hm]
      · simp [hm]

/-- Helper: a list sorted weakly with no duplicates is sorted strictly. -/
theorem pairwise_lt_of_le_nodup {l : List Nat}
    (hs : l.Pairwise (· ≤ ·)) (hn : l.Nodup) : l.Pairwise (· < ·) :=
  (hs.and hn).imp fun h => lt_of_le_of_ne h.1 h.2

/-- Helper: `sortAsc` preserves membership. -/
theorem sortAsc_mem {l : List Nat} {a : Nat} :
    a ∈ sortAsc l ↔ a ∈ l :=
  (List.perm_insertionSort (· ≤ ·) l).mem_iff

/-- Helper: `sortAsc` preserves element counts. -/
theorem sortAsc_count (l : List Nat) (a : Nat) :
    (sortAsc l).count a = l.count a :=
  (List.perm_insertionSort (· ≤ ·) l).count_eq a

/-- Helper: appending a fresh element and sorting yields a strictly
sorted list when the input was strictly sorted. -/
theorem sortAsc_pairwise_lt {l : List Nat} {u : Nat}
    (hl : l.Pairwise (· < ·)) (hu : u ∉ l) :
    (sortAsc (l ++ [u])).Pairwise (· < ·) := by
  have hsorted : (sortAsc (l ++ [u])).Pairwise (· ≤ ·) :=
    List.sorted_insertionSort (· ≤ ·) (l ++ [u])
  have hnodup0 : (l ++ [u]).Nodup := by
    rw [List.nodup_append]
    refine ⟨hl.imp (fun h => ne_of_lt h), List.nodup_singleton u, ?_⟩
    intro a ha hb
    rw [List.mem_singleton] at hb
    exact hu (hb ▸ ha)
  have hnodup : (sortAsc (l ++ [u])).Nodup :=
    ((List.perm_insertionSort (· ≤ ·) (l ++ [u])).nodup_iff).mpr hnodup0
  exact pairwise_lt_of_le_nodup hsorted hnodup

/-- Claim C3: `update_device` upserts by ip — the device is created if
absent, its `last_seen`, `source_name` and `priority` are always refreshed
to the call's values, the universe is inserted only if absent and the set
is kept strictly sorted ascending (hence duplicate-free); calling it twice
with the same (ip, universe) leaves the set containing that universe
exactly once, sorted, with no duplicates. The hypothesis is the store
invariant: any existing universe set is strictly sorted. -/
theorem claim3_update_device (st : AppState) (now1 now2 : Timestamp) (ip : IpAddr)
    (u : Nat) (name : String) (prio : Nat)
    (hinv : ∀ d0, st.devices ip = some d0 → d0.universes.Pairwise (· < ·)) :
    (∃ d, (st.update_device now1 ip u name prio).devices ip = some d
       ∧ d.last_seen = now1 ∧ d.source_name = name ∧ d.priority = prio
       ∧ u ∈ d.universes ∧ d.universes.Pairwise (· < ·) ∧ d.universes.count u = 1
       ∧ (∀ d0, st.devices ip = some d0 → u ∈ d0.universes → d.universes = d0.universes))
    ∧ (∃ d, ((st.update_device now1 ip u name prio).update_device now2 ip u name prio).devices ip
          = some d
       ∧ d.last_seen = now2 ∧ d.source_name = name ∧ d.priority = prio
       ∧ u ∈ d.universes ∧ d.universes.Pairwise (· < ·) ∧ d.universes.count u = 1) := by
  obtain ⟨d1, hd1, hls1, hsn1, hp1, hu1⟩ := update_device_at_ip st now1 ip u name prio
  have hfacts : u ∈ d1.universes ∧ d1.universes.Pairwise (· < ·)
      ∧ d1.universes.count u = 1 := by
    rw [hu1]
    cases hdev : st.devices ip with
    | none =>
      refine ⟨?_, ?_, ?_⟩
      · show u ∈ sortAsc [u]
        rw [sortAsc_mem]
        simp
      · exact sortAsc_pairwise_lt (l := []) (List.Pairwise.nil) (by simp)
      · show (sortAsc [u]).count u = 1
        rw [sortAsc_count]
        simp
    | some d0 =>
      have hpair0 := hinv d0 hdev
      by_cases hm : u ∈ d0.universes
      · simp only [if_pos hm]
        exact ⟨hm, hpair0,
          List.count_eq_one_of_mem (hpair0.imp (fun h => ne_of_lt h)) hm⟩
      · simp only [if_neg hm]
        refine ⟨?_, sortAsc_pairwise_lt hpair0 hm, ?_⟩
        · rw [sortAsc_mem]
          simp
        · rw [sortAsc_count, List.count_append, List.count_eq_zero.mpr hm]
          simp
  refine ⟨⟨d1, hd1, hls1, hsn1, hp1, hfacts.1, hfacts.2.1, hfacts.2.2, ?_⟩, ?_⟩
  · intro d0 h0 hm0
    rw [hu1, h0]
    simp [hm0]
  · obtain ⟨d2, hd2, hls2, hsn2, hp2, hu2⟩ :=
      update_device_at_ip (st.update_device now1 ip u name prio) now2 ip u name prio
    rw [hd1] at hu2
    have hu2eq : d2.universes = d1.universes := by
      rw [hu2]
      simp [hfacts.1]
    refine ⟨d2, hd2, hls2, hsn2, hp2, ?_, ?_, ?_⟩ <;> rw [hu2eq]
    exacts [hfacts.1, hfacts.2.1, hfacts.2.2]

/-- Witness for C3: a fresh store, a concrete ip and universe. -/
theorem claim3_update_device_witness :
    (∃ d, (AppState.new.update_device 0 (IpAddr.v4 10 0 0 1) 5 "src" 100).devices
          (IpAddr.v4 10 0 0 1) = some d
       ∧ d.last_seen = 0 ∧ d.source_name = "src" ∧ d.priority = 100
       ∧ 5 ∈ d.universes ∧ d.universes.Pairwise (· < ·) ∧ d.universes.count 5 = 1
       ∧ (∀ d0, AppState.new.devices (IpAddr.v4 10 0 0 1) = some d0 →
            5 ∈ d0.universes → d.universes = d0.universes))
    ∧ (∃ d, ((AppState.new.update_device 0 (IpAddr.v4 10 0 0 1) 5 "src" 100).update_device
            1 (IpAddr.v4 10 0 0 1) 5 "src" 100).devices (IpAddr.v4 10 0 0 1) = some d
       ∧ d.last_seen = 1 ∧ d.source_name = "src" ∧ d.priority = 100
       ∧ 5 ∈ d.universes ∧ d.universes.Pairwise (· < ·) ∧ d.universes.count 5 = 1) :=
  claim3_update_device AppState.new 0 1 (IpAddr.v4 10 0 0 1) 5 "src" 100
    (by intro d0 h; simp [AppState.new] at h)

/-- Claim C5: `parse` rejects every input shorter than 126 bytes with
`MalformedPacket("too short")`; it never accepts an input with fewer than
512 channel bytes remaining after offset 120 (that is, shorter than 632
bytes); and whenever such a short-payload input passed the earlier length
and identifier checks, the error is specifically `truncated payload`.
`parsePacket` is a total function, so no out-of-range read can crash. -/
theorem claim5_parse_short (bytes : List Nat) :
    (bytes.length < 126 →
      parsePacket bytes = Except.error (SacnError.MalformedPacket "too short"))
    ∧ (bytes.length < 632 → ∀ p, parsePacket bytes ≠ Except.ok p)
    ∧ (126 ≤ bytes.length → bytes.length < 632 →
        (bytes.drop 4).take 12 = ACN_PACKET_IDENTIFIER →
        parsePacket bytes
          = Except.error (SacnError.MalformedPacket "truncated payload")) := by
  refine ⟨fun h => ?_, fun h p => ?_, fun h1 h2 h3 => ?_⟩
  · simp [parsePacket, h]
  · simp only [parsePacket]
    split_ifs with c1 c2
    · simp
    · simp
    · simp
  · have hno : ¬ bytes.length < 126 := by omega
    simp [parsePacket, hno, h3, h2]

/-- Witness for C5: the empty input fails as too short, and a 200-byte
prefix of a well-formed packet fails as a truncated payload. -/
theorem claim5_parse_short_witness :
    parsePacket [] = Except.error (SacnError.MalformedPacket "too short")
    ∧ parsePacket ((create_test_packet 1 255 128).take 200)
        = Except.error (SacnError.MalformedPacket "truncated payload") :=
  ⟨(claim5_parse_short []).1 (by decide),
   (claim5_parse_short ((create_test_packet 1 255 128).take 200)).2.2
     (by decide) (by decide) (by decide)⟩

/-- Claim C1 (failing-input evaluation): parsing the packet built by
`create_test_packet(1, 255, 128)` — built from universe 1, priority 100,
sequence 0, channels[0] = 255 — yields universe 100, priority 0, sequence
0 and channels[0] = 0 instead: the parse offsets of spec section 4.1 omit
the six framing-layer header bytes (flags+length at 38..40 and vector at
40..44) that the build emits between the CID and the source name, so the
framing and DMP fields are all read 6 bytes too early (priority is read
from the NUL padding of the name field, the universe from the pair
(name padding byte, priority byte)). -/
theorem claim1_roundtrip_fails :
    (parsePacket (create_test_packet 1 255 128)).toOption.map
        (fun p => (p.universe_id, p.priority, p.sequence, p.channels.getD 0 0))
      = some (100, 0, 0, 0)
    ∧ (((100 : Nat), (0 : Nat), (0 : Nat), (0 : Nat))
        ≠ ((1 : Nat), (100 : Nat), (0 : Nat), (255 : Nat))) := by
  constructor
  · decide
  · decide
